import Mathlib

set_option autoImplicit false

/-!
Verification development for the systa event subsystem: the idle-detection
state machine (`events.py`), the filter-chain builder (`filter_by.py`), the
event-constant namespace (`constants.py`) and the callback store with its
dispatch loop and hook lifecycle (`store.py`), shallowly embedded as
executable Lean definitions.
-/

namespace Systa

/-! ## Idle detection state machine (`systa/events/events.py`, class `IdleCheck`)

`IdleCheck.check` reads `time.time()` and `get_idle_time()`; it derives
`user_input_at = sys_time - get_idle_time()` and then
`sys_idle_duration = sys_time - user_input_at`, which is exactly the value
returned by `get_idle_time()`.  The embedding therefore takes the measured
idle duration as the input of one `check` step.  Durations are rationals. -/

structure IdleCheck where
  seconds : Rat
  check_count : Nat
  check_count_limit : Nat
  previous_in_idle_period : Bool
  previous_begin_idle_period : Bool
  deriving Repr, DecidableEq

/-- Constructor as in `IdleCheck.__init__` (the `assert call_count_limit > 0`
is a precondition; the fields are initialised exactly as in the source). -/
def IdleCheck.init (seconds : Rat) (call_count_limit : Nat) : IdleCheck :=
  { seconds := seconds
    check_count := 0
    check_count_limit := call_count_limit
    previous_in_idle_period := false
    previous_begin_idle_period := false }

/-- One step of `IdleCheck.check`, applied to the measured idle duration of
this tick.  Returns the reported boolean and the updated state. -/
def IdleCheck.checkStep (ic : IdleCheck) (sys_idle_duration : Rat) :
    Bool × IdleCheck :=
  let in_idle_period : Bool := decide (sys_idle_duration > ic.seconds)
  let is_begin_idle_period : Bool :=
    in_idle_period && !ic.previous_in_idle_period &&
      !ic.previous_begin_idle_period
  let check_count : Nat :=
    if in_idle_period && is_begin_idle_period then 1
    else if in_idle_period then
      if ic.check_count + 1 ≤ ic.check_count_limit then
        if ic.check_count + 1 == 1 && !is_begin_idle_period then 0
        else ic.check_count + 1
      else 0
    else 0
  (decide (check_count > 0),
    { ic with
      previous_begin_idle_period := is_begin_idle_period
      previous_in_idle_period := in_idle_period
      check_count := check_count })

/-- Runs `check` once per tick over a list of measured idle durations and
collects the returned booleans. -/
def IdleCheck.runChecks (ic : IdleCheck) : List Rat → List Bool
  | [] => []
  | d :: ds =>
    let (b, ic') := ic.checkStep d
    b :: ic'.runChecks ds

/-! ## Windows and payloads (`systa/windows.py`, `systa/events/types.py`)

`Window` has no `__bool__`, so an instance is always truthy; the payload's
`window` field is falsy exactly when it is `None` (or the integer `0`, which
`make_func_hookable` stores for events without a window) — both are modelled
by `Option.none`.  `title` is `Optional[str]`; `exists` is a boolean
property (modelled as a field; the apostrophe avoids the Lean keyword). -/

structure Window where
  title : Option String
  exists' : Bool
  deriving Repr, DecidableEq

/-- Typed payload as handed to filter predicates (`EventData`); the parts the
filter code reads.  `context` is the free-form dict. -/
structure EventData where
  window : Option Window := none
  context : List (String × Rat) := []
  deriving Repr, DecidableEq

/-! ## Title heuristics (`systa/events/constants.py`, `_WinEvent`)

`fnmatchcase` as used here: the fixed pattern list below contains only
literal characters and `*`; `?` is also implemented.  (Bracket classes,
which `fnmatch` additionally supports, do not occur in any pattern this
code matches against.) -/

def globMatch : List Char → List Char → Bool
  | [], s => s.isEmpty
  | '*' :: ps, s => s.tails.any (fun t => globMatch ps t)
  | '?' :: ps, s =>
    match s with
    | [] => false
    | _ :: cs => globMatch ps cs
  | p :: ps, s =>
    match s with
    | [] => false
    | c :: cs => (p == c) && globMatch ps cs

def fnmatchcase (name pat : String) : Bool :=
  globMatch pat.toList name.toList

def WINDOWS_INTERNALS_TITLES : List String :=
  [("OLEChannelWnd"),
   ("OleMainThreadWndName"),
   ("Default IME"),
   ("MSCTFIME UI"),
   ("DDE Server Window"),
   ("CicMarshalWnd"),
   ("OfficePowerManagerWindow"),
   ("System Clock, *"),
   ("System Promoted Notification Area"),
   ("Tray Input Indicator"),
   ("Action Center, *")]

def is_windows_internal_title (title : String) : Bool :=
  WINDOWS_INTERNALS_TITLES.any (fun internal_title => fnmatchcase title internal_title)

/-! ## Filter chain builder (`systa/events/decorators/filter_by.py`)

`_make_filter` builds an `EventTesterBase` whose `event_test` runs the
built-in guards (a short-circuiting `or` of three conjuncts, left to right)
and then the user predicate inside a `try/except pywintypes.error`.
`EventTesterBase.__call__` produces the wrapper
`fun data => if data is None or not event_test(data) then None else func(data)`.

The embedding additionally returns the evaluation trace (which guard, the
predicate, the inner callback) in the order the Python control flow reaches
them, so claims about evaluation order are statable. -/

inductive PyErr where
  | pywinError (winerror : Int)
  | otherError (code : Nat)
  deriving Repr, DecidableEq

structure FilterConfig where
  require_existing_window : Bool
  exclude_sys_windows : Bool
  capture_invalid_window_handle : Bool
  deriving Repr, DecidableEq

inductive Step where
  | existingWindowGuard
  | sysWindowsGuard
  | userPredicate
  | innerCallback
  deriving Repr, DecidableEq

/-- Truthiness of `event_data.window` (no `__bool__`: truthy iff present). -/
def windowTruthy (d : EventData) : Bool :=
  d.window.isSome

/-- Value of `event_data.window.exists`, read only when a window is present. -/
def windowExists (d : EventData) : Bool :=
  match d.window with
  | none => false
  | some w => w.exists'

/-- The raw predicate of the module-level `exclude_system_windows` filter
(`apply_filter` unwraps the decorator and calls exactly this function):
`if not data.window: return True` then
`return data.window.title and not is_windows_internal_title(title)`,
as a truth value. -/
def exclude_system_windows_test (data : EventData) : Bool :=
  match data.window with
  | none => true
  | some w =>
    match w.title with
    | none => false
    | some t => !(t == ("")) && !is_windows_internal_title t

/-- The guard disjunction of `_tester.event_test`, as one boolean: true when
no enabled guard short-circuits. -/
def guardsPass (cfg : FilterConfig) (d : EventData) : Bool :=
  !((cfg.require_existing_window && !windowTruthy d) ||
     (cfg.require_existing_window && !windowExists d) ||
     (cfg.exclude_sys_windows && !exclude_system_windows_test d))

/-- The guard steps a payload evaluation passes through before the user
predicate, given which guards are enabled. -/
def enabledGuardSteps (cfg : FilterConfig) : List Step :=
  (if cfg.require_existing_window then [Step.existingWindowGuard] else []) ++
    (if cfg.exclude_sys_windows then [Step.sysWindowsGuard] else [])

/-- `_tester.event_test` of `_make_filter`: evaluates the built-in guards in
the source's short-circuit order, then the user predicate `test` with the
`pywintypes.error`/`winerror == 1400` capture.  Returns the boolean (or the
propagated error) together with the evaluation trace. -/
def event_test (cfg : FilterConfig) (test : EventData → Except PyErr Bool)
    (d : EventData) : Except PyErr Bool × List Step :=
  let t1 : List Step := if cfg.require_existing_window then [Step.existingWindowGuard] else []
  if (cfg.require_existing_window && !windowTruthy d) ||
      (cfg.require_existing_window && !windowExists d) then
    (Except.ok false, t1)
  else
    let t2 : List Step := t1 ++ (if cfg.exclude_sys_windows then [Step.sysWindowsGuard] else [])
    if cfg.exclude_sys_windows && !exclude_system_windows_test d then
      (Except.ok false, t2)
    else
      let t3 : List Step := t2 ++ [Step.userPredicate]
      match test d with
      | Except.ok b => (Except.ok b, t3)
      | Except.error (PyErr.pywinError w) =>
        if cfg.capture_invalid_window_handle && w == 1400 then (Except.ok false, t3)
        else (Except.error (PyErr.pywinError w), t3)
      | Except.error (PyErr.otherError c) => (Except.error (PyErr.otherError c), t3)

/-- The wrapper returned by `EventTesterBase.__call__`:
`if data is None or not self.event_test(data): return None` else
`return func(data)`.  An exception escaping `event_test` propagates. -/
def filter_wrapper {α : Type} (cfg : FilterConfig)
    (test : EventData → Except PyErr Bool) (func : EventData → α)
    (data : Option EventData) : Except PyErr (Option α) × List Step :=
  match data with
  | none => (Except.ok none, [])
  | some d =>
    match event_test cfg test d with
    | (Except.ok true, tr) => (Except.ok (some (func d)), tr ++ [Step.innerCallback])
    | (Except.ok false, tr) => (Except.ok none, tr)
    | (Except.error e, tr) => (Except.error e, tr)

/-! ## Event constant namespace (`systa/events/constants.py`, `_WinEvent`)

`_WinEvent.__init__` collects into `self.events` every upper-case class
attribute starting with `EVENT_` except `EVENT_MIN` and `EVENT_MAX` (the
`_EVENT_AIA_*` endpoints start with an underscore and are also excluded).
`__contains__` is `item in self.ALL_EVENTS_RANGE or item in
self.ALL_AIA_EVENTS_RANGE or item in self.values()`; the first two operands
are two-element *tuples*, so Python's `in` there is element membership
(equality with an endpoint), not interval containment. -/

def EVENT_MIN : Int := 0x00000001

def EVENT_MAX : Int := 0x7FFFFFFF

def ALL_EVENTS_RANGE : Int × Int := (EVENT_MIN, EVENT_MAX)

def ALL_AIA_EVENTS_RANGE : Int × Int := (0xA000, 0xAFFF)

/-- Values of `win_events.values()`: every `EVENT_*` class attribute kept by
`_is_event_attr`, in class-body order. -/
def winEventValues : List Int :=
  [0x8012, 0x8017, 0x8015, 0x8000, 0x8011, 0x800D, 0x8001, 0x8021, 0x8022,
   0x8023, 0x8024, 0x8025, 0x8026, 0x80FF, 0x8005, 0x8010, 0x8003, 0x8020,
   0x8028, 0x8027, 0x8029, 0x8013, 0x8019, 0x800B, 0x800C, 0x800F, 0x8004,
   0x8006, 0x8007, 0x8008, 0x8009, 0x8002, 0x800A, 0x8030, 0x8014, 0x8018,
   0x800E, 0x0101, 0x01FF, 0x0002, 0x8016, 0x0009, 0x0008, 0x000D, 0x000C,
   0x0020, 0x0011, 0x0010, 0x000F, 0x000E, 0x00FF, 0x0003, 0x0007, 0x0006,
   0x0005, 0x0004, 0x0017, 0x0016, 0x000B, 0x000A, 0x0013, 0x0012, 0x0001,
   0x0015, 0x0014, 0x4E00, 0x4EFF, 0x7500, 0x75FF]

/-- `_WinEvent.__contains__`: tuple membership on the two range tuples, then
membership in the named event values. -/
def win_events_mem (item : Int) : Bool :=
  (item == ALL_EVENTS_RANGE.1 || item == ALL_EVENTS_RANGE.2) ||
    (item == ALL_AIA_EVENTS_RANGE.1 || item == ALL_AIA_EVENTS_RANGE.2) ||
    winEventValues.contains item

/-- `_WinEvent.is_valid_range`: `len(rng) == 2 and (rng[0] < rng[1] or
rng[0] == rng[1]) and rng[0] in self and rng[1] in self`.  The argument is a
tuple of arbitrary length, modelled as a list. -/
def is_valid_range (rng : List Int) : Bool :=
  match rng with
  | [a, b] => (decide (a < b) || a == b) && win_events_mem a && win_events_mem b
  | _ => false

/-- Modelled from the spec (for comparison with `is_valid_range`): membership
in "at least one known event namespace" read as interval containment in the
global range `[EVENT_MIN, EVENT_MAX]` or the AIA sub-range, or being a known
named event value. -/
def inAnyNamespaceSpec (x : Int) : Bool :=
  (decide (EVENT_MIN ≤ x) && decide (x ≤ EVENT_MAX)) ||
    (decide (ALL_AIA_EVENTS_RANGE.1 ≤ x) && decide (x ≤ ALL_AIA_EVENTS_RANGE.2)) ||
    winEventValues.contains x

/-- Modelled from the spec (for comparison with `is_valid_range`): the
claim's reading of `is_valid_range`. -/
def is_valid_range_specModel (rng : List Int) : Bool :=
  match rng with
  | [a, b] => decide (a ≤ b) && inAnyNamespaceSpec a && inAnyNamespaceSpec b
  | _ => false

/-! ## Callback store (`systa/events/store.py`, class `Store`)

User callbacks are keyed by identity; the embedding uses an opaque `Nat` id
for the original (unwrapped) function.  A derived callable is the original
function wrapped by zero or more filter decorators, recorded as syntax so
composition order is observable.  Python dicts are insertion-ordered
association lists with unique keys. -/

inductive Wrapped where
  | base (cb : Nat)
  | wrap (filterId : Nat) (inner : Wrapped)
  deriving Repr, DecidableEq

/-- `inspect.unwrap`: follows the `__wrapped__` chain set by `functools.wraps`
down to the original function. -/
def Wrapped.unwrapId : Wrapped → Nat
  | Wrapped.base cb => cb
  | Wrapped.wrap _ inner => inner.unwrapId

/-- Python `d[k] = v` on an insertion-ordered dict: replace in place if the
key exists, else append. -/
def dictSet {β : Type} : List (Nat × β) → Nat → β → List (Nat × β)
  | [], k, v => [(k, v)]
  | (k', v') :: rest, k, v =>
    if k' == k then (k', v) :: rest else (k', v') :: dictSet rest k v

/-- `defaultdict(list)`: `d[k].append(x)`. -/
def dictAppend {α : Type} : List (Nat × List α) → Nat → α → List (Nat × List α)
  | [], k, x => [(k, [x])]
  | (k', xs) :: rest, k, x =>
    if k' == k then (k', xs ++ [x]) :: rest else (k', xs) :: dictAppend rest k x

/-- Signature facts of a user callback that the two validation layers of
`add_user_func` inspect: how many parameters it declares and whether the
(first) parameter is annotated with `EventData`.  The modelled callbacks are
plain functions whose parameters are all mandatory and positional (no
defaults, varargs or keyword-only parameters), which covers every callback
the repository registers; `param_count` is that declared parameter count. -/
structure Callback where
  id : Nat
  param_count : Nat
  param_annotated_event_data : Bool
  deriving Repr, DecidableEq

structure Store where
  derived_callback : List (Nat × Wrapped) := []
  cb_ranges : List (Nat × List (Int × Int)) := []
  cb_checkable_events : List (Nat × List IdleCheck) := []
  callback_hooks_handles : List (Nat × List Int) := []
  running : Bool := false
  deriving Repr, DecidableEq

/-- Fresh store, as `_init_store` leaves it. -/
def Store.emptyStore : Store := {}

/-- `Store.update_callable`: `self._derived_callback[cb] = new_cb`. -/
def Store.update_callable (st : Store) (cb : Nat) (new_cb : Wrapped) : Store :=
  { st with derived_callback := dictSet st.derived_callback cb new_cb }

/-- `Store.get_derived_callable`: `self._derived_callback.get(cb, cb)`. -/
def Store.get_derived_callable (st : Store) (cb : Nat) : Wrapped :=
  (List.lookup cb st.derived_callback).getD (Wrapped.base cb)

/-- Registry side of `EventTesterBase.__call__`: wrap `func`, then
`callback_store.update_callable(unwrap(func), wrapper)`; returns the wrapper
and the updated store. -/
def applyFilterDecorator (filterId : Nat) (func : Wrapped) (st : Store) :
    Wrapped × Store :=
  let wrapper := Wrapped.wrap filterId func
  (wrapper, st.update_callable func.unwrapId wrapper)

/-- `Store.is_registered_for`: `event_range in self._cb_ranges.get(cb, [])`. -/
def Store.is_registered_for (st : Store) (cb : Nat) (event_range : Int × Int) : Bool :=
  ((List.lookup cb st.cb_ranges).getD []).contains event_range

/-! ### Event spec normalization (`coerce_event_ranges`, `add_user_func`) -/

/-- The shapes of the `events` argument that `coerce_event_ranges` accepts: a
single int, one pair of ints, or a sequence of pairs of ints. -/
inductive EventsArg where
  | single (e : Int)
  | pair (a b : Int)
  | rangeList (rs : List (Int × Int))
  deriving Repr, DecidableEq

/-- `coerce_event_ranges`: an int becomes `[(e, e)]`, a collection of ints is
wrapped in a singleton list, a collection of collections of ints is returned
as-is.  (Arguments of no such shape raise `TypeError` and are outside this
inductive.) -/
def coerce_event_ranges : EventsArg → List (Int × Int)
  | EventsArg.single e => [(e, e)]
  | EventsArg.pair a b => [(a, b)]
  | EventsArg.rangeList rs => rs

inductive StoreErr where
  | assertionError
  | keyError
  | typeError
  deriving Repr, DecidableEq

/-- The `@typechecked` decorator's validation of the `cb` argument against
`UserEventCallableType = Callable[[EventData], None]`: typeguard inspects the
callable's declared signature (never its annotations) and raises `TypeError`
when its argument count is incompatible with the one declared argument.  For
the modelled callbacks — plain functions with only mandatory positional
parameters — the check passes exactly when the parameter count is one. -/
def typechecked_callable_gate (cb : Callback) : Except StoreErr Unit :=
  if cb.param_count == 1 then Except.ok ()
  else Except.error StoreErr.typeError

/-- `_check_user_callback_type`: raises `KeyError` unless the callback takes
exactly one parameter annotated `EventData`. -/
def check_user_callback_type (cb : Callback) : Except StoreErr Unit :=
  if cb.param_count == 1 && cb.param_annotated_event_data then Except.ok ()
  else Except.error StoreErr.keyError

/-- Keys of the result dict of `add_user_func`. -/
inductive BindKey where
  | range (r : Int × Int)
  | checkable (ev : IdleCheck)
  deriving Repr, DecidableEq

/-- The `events` argument of `add_user_func`: a `CheckableEvent` (modelled by
its `IdleCheck` variant) or ranged events. -/
inductive AddArg where
  | checkable (ev : IdleCheck)
  | events (es : EventsArg)
  deriving Repr, DecidableEq

/-- The per-range loop of `add_user_func`.  An error carries the store as
mutated so far (Python raises mid-loop after earlier appends took effect). -/
def addRangesLoop (cb : Callback) (st : Store) (acc : List (BindKey × Bool)) :
    List (Int × Int) → Except (StoreErr × Store) (Store × List (BindKey × Bool))
  | [] => Except.ok (st, acc)
  | r :: rs =>
    if st.is_registered_for cb.id r then
      addRangesLoop cb st (acc ++ [(BindKey.range r, false)]) rs
    else
      match check_user_callback_type cb with
      | Except.error e => Except.error (e, st)
      | Except.ok () =>
        let st' := { st with cb_ranges := dictAppend st.cb_ranges cb.id r }
        addRangesLoop cb st' (acc ++ [(BindKey.range r, true)]) rs

/-- The undecorated body of `Store.add_user_func`: the `CheckableEvent`
branch appends the event and returns `{events: True}`; the ranged branch
coerces the spec, asserts every range is ordered, then runs the
dedup/validate/bind loop.  (The source decorates this function with
`@typechecked`; the decorated entry point callers go through is
`Store.add_user_func_checked` below.) -/
def Store.add_user_func (st : Store) (cb : Callback) (events : AddArg) :
    Except (StoreErr × Store) (Store × List (BindKey × Bool)) :=
  match events with
  | AddArg.checkable ev =>
    Except.ok ({ st with cb_checkable_events := dictAppend st.cb_checkable_events cb.id ev },
      [(BindKey.checkable ev, true)])
  | AddArg.events es =>
    let ranges := coerce_event_ranges es
    if ranges.all (fun r => decide (r.1 ≤ r.2)) then
      addRangesLoop cb st [] ranges
    else
      Except.error (StoreErr.assertionError, st)

/-- `Store.add_user_func` as invoked by callers: the function is decorated
`@typechecked` (store.py:67), so typeguard's gate on `cb` runs before the
body on every call path — the `CheckableEvent` branch, duplicate ranged
binds and fresh ranged binds alike. -/
def Store.add_user_func_checked (st : Store) (cb : Callback) (events : AddArg) :
    Except (StoreErr × Store) (Store × List (BindKey × Bool)) :=
  match typechecked_callable_gate cb with
  | Except.error e => Except.error (e, st)
  | Except.ok () => st.add_user_func cb events

/-! ### Hook lifecycle (`unregister_hook`, `unregister_all_hooks`, `run`)

`user32.UnhookWinEvent` rejects a handle value that does not fit the native
argument type (`ctypes.ArgumentError`, the numeric-overflow case); which
handle values are malformed is a parameter of the embedding. -/

/-- `unregister_hook(hook, raise_on_err=True)`: on `ctypes.ArgumentError`,
re-raise when `raise_on_err` else return `False`; return `True` on success. -/
def unregister_hook (malformed : Int → Bool) (hook : Int)
    (raise_on_err : Bool := true) : Except Unit Bool :=
  if malformed hook then
    if raise_on_err then Except.error () else Except.ok false
  else
    Except.ok true

/-- `Store.hooks`: `chain.from_iterable(self._callback_hooks_handles.values())`. -/
def Store.allHooks (st : Store) : List Int :=
  (st.callback_hooks_handles.map Prod.snd).flatten

/-- The sweep of `unregister_all_hooks`: unregister each stored handle with
the default `raise_on_err=True`.  Returns the successfully unregistered
handles; an `.error` is the propagating `ArgumentError`, carrying the handles
unregistered before the abort. -/
def unhookSweep (malformed : Int → Bool) (done : List Int) :
    List Int → Except (List Int) (List Int)
  | [] => Except.ok done
  | h :: hs =>
    match unregister_hook malformed h with
    | Except.error () => Except.error done
    | Except.ok _ => unhookSweep malformed (done ++ [h]) hs

/-- `Store.unregister_all_hooks`: the sweep followed (only on success) by
resetting every handle list to `[]`.  On error, the store is unchanged and
the result carries which handles had been unregistered natively. -/
def Store.unregister_all_hooks (malformed : Int → Bool) (st : Store) :
    Except (List Int) (Store × List Int) :=
  match unhookSweep malformed [] st.allHooks with
  | Except.error done => Except.error done
  | Except.ok done =>
    Except.ok ({ st with
      callback_hooks_handles := st.callback_hooks_handles.map (fun p => (p.1, [])) }, done)

inductive RunError where
  | loopAlreadyRunning
  | dispatchError (code : Nat)
  | unhookArgumentError
  deriving Repr, DecidableEq

/-- How one execution of the `msg_loop` body ends.  `normal` covers every
path that breaks or returns without an in-flight exception: the stop event,
the user deadline, a `WM_QUIT`, an exception during message pumping (caught
and logged), a `KeyboardInterrupt` (caught), or the running flag being
cleared.  `dispatchExc` is an exception escaping a pollable condition's
dispatch, which nothing inside the loop catches. -/
inductive LoopExit where
  | normal
  | dispatchExc (code : Nat)
  deriving Repr, DecidableEq

/-- `Store.msg_loop`'s exit protocol: whatever way the body ends, the
`finally` block runs `unregister_all_hooks`; an `ArgumentError` raised there
supersedes any in-flight exception and leaves the handle lists in place. -/
def Store.msg_loop_exit (malformed : Int → Bool) (ex : LoopExit) (st : Store) :
    Option RunError × Store :=
  match st.unregister_all_hooks malformed with
  | Except.ok (st', _) =>
    match ex with
    | LoopExit.normal => (none, st')
    | LoopExit.dispatchExc c => (some (RunError.dispatchError c), st')
  | Except.error _ => (some RunError.unhookArgumentError, st)

/-- The hook-registration loop at the top of `Store.run`: one
`SetWinEventHook` per (callback, range) binding, in registration order; the
returned handles (modelled as consecutive numbers) are appended to
`_callback_hooks_handles[callback]`. -/
def Store.registerHooks (st : Store) : Store :=
  let bindings := st.cb_ranges.flatMap (fun p => p.2.map (fun r => (p.1, r)))
  bindings.enum.foldl
    (fun s x =>
      { s with callback_hooks_handles := dictAppend s.callback_hooks_handles x.2.1 (Int.ofNat x.1) })
    st

/-- `Store.run`: raise `RuntimeError` if already running; else set the flag,
bind all hooks, run the message loop, and in the `finally` clear the flag. -/
def Store.run (malformed : Int → Bool) (ex : LoopExit) (st : Store) :
    Option RunError × Store :=
  if st.running then (some RunError.loopAlreadyRunning, st)
  else
    let st1 := { st.registerHooks with running := true }
    let (res, st2) := Store.msg_loop_exit malformed ex st1
    (res, { st2 with running := false })

/-! ## Dispatch-loop tick (`Store.msg_loop`, the `WAIT_TIMEOUT` branch)

`EventData` is dynamically typed in Python; the `WAIT_TIMEOUT` branch builds
`EventData(context=event.result())`, so the `context` slot can hold either a
dict or another `EventData` object.  The dynamic payload type makes both
representable. -/

mutual

inductive DynEventData where
  | mk (window : Option Nat) (event_info : Option Nat) (context : DynContext) : DynEventData
  deriving Repr, DecidableEq

inductive DynContext where
  | dict (entries : List (String × Rat)) : DynContext
  | payload (d : DynEventData) : DynContext
  deriving Repr, DecidableEq

end

def DynEventData.context : DynEventData → DynContext
  | DynEventData.mk _ _ c => c

/-- Key lookup in a payload's `context` slot, as a map access would see it:
defined only when the slot actually holds a dict (subscripting an
`EventData` object raises `TypeError` in Python). -/
def DynContext.mapLookup : DynContext → String → Option Rat
  | DynContext.dict entries, k => List.lookup k entries
  | DynContext.payload _, _ => none

/-- `IdleCheck.result`: `data = EventData.get_empty()`;
`data.context["idle_for"] = get_idle_time()`; `return data`. -/
def IdleCheck.resultPayload (idle : Rat) : DynEventData :=
  DynEventData.mk none none (DynContext.dict [(("idle_for"), idle)])

/-- The `WAIT_TIMEOUT` branch of `msg_loop`: for every `(cb, events)` entry
and every checkable event, run `check()` (which updates the event's state);
when it reports true, immediately invoke
`self.get_derived_callable(cb)` with `EventData(context=event.result())`.
Returns the updated entries and the synchronous invocations in order, each
as (derived callable, argument payload).  `idle` is the measured idle
duration of this tick, read by both `check` and `result`. -/
def tickCheckables (derived : Nat → Wrapped) (idle : Rat) :
    List (Nat × List IdleCheck) →
      List (Nat × List IdleCheck) × List (Wrapped × DynEventData)
  | [] => ([], [])
  | (cb, evs) :: rest =>
    let processed := evs.map (fun ev => ev.checkStep idle)
    let calls := (processed.filter (fun q => q.1)).map
      (fun _ => (derived cb,
        DynEventData.mk none none (DynContext.payload (IdleCheck.resultPayload idle))))
    let (rest', calls') := tickCheckables derived idle rest
    ((cb, processed.map Prod.snd) :: rest', calls ++ calls')

/-- One `WAIT_TIMEOUT` iteration over the store's checkable events. -/
def Store.tickTimeout (st : Store) (idle : Rat) :
    Store × List (Wrapped × DynEventData) :=
  let (entries, calls) := tickCheckables st.get_derived_callable idle st.cb_checkable_events
  ({ st with cb_checkable_events := entries }, calls)

end Systa

namespace Systa

/-! ## Helper lemmas -/

lemma lookup_dictSet {β : Type} (l : List (Nat × β)) (k : Nat) (v : β) :
    List.lookup k (dictSet l k v) = some v := by
  induction l with
  | nil => simp [dictSet, List.lookup]
  | cons p rest ih =>
    obtain ⟨k', v'⟩ := p
    by_cases h : k' = k
    · subst h
      simp [dictSet, List.lookup]
    · have hk : (k == k') = false := by
        simp [Ne.symm h]
      simp [dictSet, List.lookup, h, hk, ih]

lemma unhookSweep_clean (m : Int → Bool) (l : List Int) :
    ∀ done, (∀ x ∈ l, m x = false) → unhookSweep m done l = Except.ok (done ++ l) := by
  induction l with
  | nil => intro done _; simp [unhookSweep]
  | cons h hs ih =>
    intro done hcl
    have hm : m h = false := hcl h (List.mem_cons_self h hs)
    have := ih (done ++ [h]) (fun x hx => hcl x (List.mem_cons_of_mem h hx))
    simp [unhookSweep, unregister_hook, hm, this]

lemma unhookSweep_abort (m : Int → Bool) (h : Int) (post : List Int) (hm : m h = true) :
    ∀ (pre done : List Int), (∀ x ∈ pre, m x = false) →
      unhookSweep m done (pre ++ h :: post) = Except.error (done ++ pre) := by
  intro pre
  induction pre with
  | nil => intro done _; simp [unhookSweep, unregister_hook, hm]
  | cons p ps ih =>
    intro done hcl
    have hp : m p = false := hcl p (List.mem_cons_self p ps)
    have := ih (done ++ [p]) (fun x hx => hcl x (List.mem_cons_of_mem p hx))
    simp [unhookSweep, unregister_hook, hp] at this ⊢
    simpa using this

lemma flatten_map_nil (L : List (Nat × List Int)) :
    ((L.map (fun p => (p.1, ([] : List Int)))).map Prod.snd).flatten = [] := by
  induction L with
  | nil => rfl
  | cons p ps ih => simp [ih]

lemma unregister_all_hooks_clean (m : Int → Bool) (st : Store)
    (hcl : ∀ x ∈ st.allHooks, m x = false) :
    st.unregister_all_hooks m =
      Except.ok ({ st with
        callback_hooks_handles := st.callback_hooks_handles.map (fun p => (p.1, [])) },
        st.allHooks) := by
  simp [Store.unregister_all_hooks, unhookSweep_clean m st.allHooks [] hcl]

lemma guardsPass_iff (cfg : FilterConfig) (d : EventData) :
    guardsPass cfg d = true ↔
      ((cfg.require_existing_window && !windowTruthy d) ||
        (cfg.require_existing_window && !windowExists d)) = false ∧
      (cfg.exclude_sys_windows && !exclude_system_windows_test d) = false := by
  cases hr : cfg.require_existing_window <;> cases hs : cfg.exclude_sys_windows <;>
    cases hw : windowTruthy d <;> cases he : windowExists d <;>
      cases hx : exclude_system_windows_test d <;>
        simp [guardsPass, hr, hs, hw, he, hx]

lemma event_test_guard_fail1 (cfg : FilterConfig) (test : EventData → Except PyErr Bool)
    (d : EventData)
    (h1 : ((cfg.require_existing_window && !windowTruthy d) ||
        (cfg.require_existing_window && !windowExists d)) = true) :
    event_test cfg test d =
      (Except.ok false, if cfg.require_existing_window then [Step.existingWindowGuard] else []) := by
  simp [event_test, h1]

lemma event_test_guard_fail2 (cfg : FilterConfig) (test : EventData → Except PyErr Bool)
    (d : EventData)
    (h1 : ((cfg.require_existing_window && !windowTruthy d) ||
        (cfg.require_existing_window && !windowExists d)) = false)
    (h2 : (cfg.exclude_sys_windows && !exclude_system_windows_test d) = true) :
    event_test cfg test d = (Except.ok false, enabledGuardSteps cfg) := by
  simp [event_test, h1, h2, enabledGuardSteps]

lemma event_test_pass (cfg : FilterConfig) (test : EventData → Except PyErr Bool)
    (d : EventData)
    (h1 : ((cfg.require_existing_window && !windowTruthy d) ||
        (cfg.require_existing_window && !windowExists d)) = false)
    (h2 : (cfg.exclude_sys_windows && !exclude_system_windows_test d) = false) :
    event_test cfg test d =
      ((match test d with
        | Except.ok b => Except.ok b
        | Except.error (PyErr.pywinError w) =>
          if cfg.capture_invalid_window_handle && w == 1400 then Except.ok false
          else Except.error (PyErr.pywinError w)
        | Except.error (PyErr.otherError c) => Except.error (PyErr.otherError c)),
        enabledGuardSteps cfg ++ [Step.userPredicate]) := by
  rcases htd : test d with e | b
  · cases e with
    | pywinError w =>
      by_cases hc : cfg.capture_invalid_window_handle = true ∧ w = 1400
      · simp [event_test, h1, h2, enabledGuardSteps, htd, hc]
      · simp [event_test, h1, h2, enabledGuardSteps, htd, hc]
    | otherError c => simp [event_test, h1, h2, enabledGuardSteps, htd]
  · simp [event_test, h1, h2, enabledGuardSteps, htd]

lemma filter_wrapper_snd_cases {α : Type} (cfg : FilterConfig)
    (test : EventData → Except PyErr Bool) (func : EventData → α) (d : EventData) :
    (filter_wrapper cfg test func (some d)).2 = (event_test cfg test d).2 ∨
    (filter_wrapper cfg test func (some d)).2 =
      (event_test cfg test d).2 ++ [Step.innerCallback] := by
  unfold filter_wrapper
  rcases hev : event_test cfg test d with ⟨res, tr⟩
  rcases res with e | b
  · left
    simp only [hev]
  · cases b
    · left
      simp only [hev]
    · right
      simp only [hev]

lemma event_test_snd_cases (cfg : FilterConfig) (test : EventData → Except PyErr Bool)
    (d : EventData) :
    (event_test cfg test d).2 =
        (if cfg.require_existing_window then [Step.existingWindowGuard] else []) ∨
    (event_test cfg test d).2 = enabledGuardSteps cfg ∨
    ((event_test cfg test d).2 = enabledGuardSteps cfg ++ [Step.userPredicate] ∧
      guardsPass cfg d = true) := by
  by_cases h1 : ((cfg.require_existing_window && !windowTruthy d) ||
      (cfg.require_existing_window && !windowExists d)) = true
  · left
    rw [event_test_guard_fail1 cfg test d h1]
  · have h1' : ((cfg.require_existing_window && !windowTruthy d) ||
        (cfg.require_existing_window && !windowExists d)) = false := by
      simpa using h1
    by_cases h2 : (cfg.exclude_sys_windows && !exclude_system_windows_test d) = true
    · right
      left
      rw [event_test_guard_fail2 cfg test d h1' h2]
    · have h2' : (cfg.exclude_sys_windows && !exclude_system_windows_test d) = false := by
        simpa using h2
      right
      right
      exact ⟨by rw [event_test_pass cfg test d h1' h2'],
        (guardsPass_iff cfg d).mpr ⟨h1', h2'⟩⟩

/-! ## Claim theorems -/

/-- C1: a wrapper produced by a `make_filter` decorator returns the no-op
sentinel on a `None` payload without evaluating any guard, the predicate, or
the inner callback; on a non-`None` payload the built-in guards run first, in
the fixed order existing-window check then system-window heuristic, before
the user predicate; and when every enabled guard and the predicate return
true the wrapper returns the inner callback's result, otherwise the no-op
sentinel rather than an error. -/
theorem filter_wrapper_guard_order_and_result {α : Type} (cfg : FilterConfig)
    (test : EventData → Except PyErr Bool) (func : EventData → α) :
    (filter_wrapper cfg test func none = (Except.ok none, [])) ∧
    (∀ d, (filter_wrapper cfg test func (some d)).2.Sublist
        [Step.existingWindowGuard, Step.sysWindowsGuard, Step.userPredicate,
          Step.innerCallback]) ∧
    (∀ d, Step.userPredicate ∈ (filter_wrapper cfg test func (some d)).2 →
      ∃ rest, (filter_wrapper cfg test func (some d)).2 =
        enabledGuardSteps cfg ++ Step.userPredicate :: rest) ∧
    (∀ d b, test d = Except.ok b →
      (filter_wrapper cfg test func (some d)).1 =
        Except.ok (if guardsPass cfg d && b then some (func d) else none)) := by
  refine ⟨rfl, fun d => ?_, fun d => ?_, fun d b hb => ?_⟩
  · rcases filter_wrapper_snd_cases cfg test func d with hw | hw <;>
      rcases event_test_snd_cases cfg test d with he | he | ⟨he, -⟩ <;>
        rw [hw, he] <;>
          cases hr : cfg.require_existing_window <;>
            cases hs : cfg.exclude_sys_windows <;>
              simp [enabledGuardSteps, hr, hs]
  · intro hmem
    rcases filter_wrapper_snd_cases cfg test func d with hw | hw <;>
      rcases event_test_snd_cases cfg test d with he | he | ⟨he, -⟩
    · rw [hw, he] at hmem
      exfalso
      revert hmem
      cases hr : cfg.require_existing_window <;> simp
    · rw [hw, he] at hmem
      exfalso
      revert hmem
      cases hr : cfg.require_existing_window <;>
        cases hs : cfg.exclude_sys_windows <;>
          simp [enabledGuardSteps, hr, hs]
    · exact ⟨[], by rw [hw, he]⟩
    · rw [hw, he] at hmem
      exfalso
      revert hmem
      cases hr : cfg.require_existing_window <;> simp
    · rw [hw, he] at hmem
      exfalso
      revert hmem
      cases hr : cfg.require_existing_window <;>
        cases hs : cfg.exclude_sys_windows <;>
          simp [enabledGuardSteps, hr, hs]
    · refine ⟨[Step.innerCallback], ?_⟩
      rw [hw, he]
      simp
  · by_cases h1 : ((cfg.require_existing_window && !windowTruthy d) ||
        (cfg.require_existing_window && !windowExists d)) = true
    · have hgp : guardsPass cfg d = false := by
        cases hgv : guardsPass cfg d
        · rfl
        · have := ((guardsPass_iff cfg d).mp hgv).1
          rw [h1] at this
          exact absurd this (by simp)
      simp [filter_wrapper, event_test_guard_fail1 cfg test d h1, hgp]
    · have h1' : ((cfg.require_existing_window && !windowTruthy d) ||
          (cfg.require_existing_window && !windowExists d)) = false := by
        simpa using h1
      by_cases h2 : (cfg.exclude_sys_windows && !exclude_system_windows_test d) = true
      · have hgp : guardsPass cfg d = false := by
          cases hgv : guardsPass cfg d
          · rfl
          · have := ((guardsPass_iff cfg d).mp hgv).2
            rw [h2] at this
            exact absurd this (by simp)
        simp [filter_wrapper, event_test_guard_fail2 cfg test d h1' h2, hgp]
      · have h2' : (cfg.exclude_sys_windows && !exclude_system_windows_test d) = false := by
          simpa using h2
        have he := event_test_pass cfg test d h1' h2'
        have hgp : guardsPass cfg d = true := (guardsPass_iff cfg d).mpr ⟨h1', h2'⟩
        cases b <;> simp [filter_wrapper, he, hb, hgp]

/-- Witness for C1 at a concrete configuration, payload, predicate and inner
callback. -/
theorem filter_wrapper_guard_order_and_result_witness :
    ((fun _ => Except.ok true : EventData → Except PyErr Bool)
        ⟨some ⟨some ("Notepad"), true⟩, []⟩ = Except.ok true) ∧
    (filter_wrapper ⟨true, true, true⟩ (fun _ => Except.ok true)
        (fun _ => (7 : Nat)) (some ⟨some ⟨some ("Notepad"), true⟩, []⟩)).1 =
      Except.ok (if guardsPass ⟨true, true, true⟩ ⟨some ⟨some ("Notepad"), true⟩, []⟩ &&
          true then some 7 else none) :=
  ⟨rfl,
    (filter_wrapper_guard_order_and_result ⟨true, true, true⟩ (fun _ => Except.ok true)
        (fun _ => (7 : Nat))).2.2.2 ⟨some ⟨some ("Notepad"), true⟩, []⟩ true rfl⟩

/-- C2: on a tick timeout, each pollable condition whose `check()` reports
true has its callback's current derived callable invoked synchronously, but
the argument is `EventData(context=event.result())`: its `context` slot holds
the `EventData` object returned by `result()`, not a context map, so the
invoked payload's context map carries no `idle_for` key — the measured idle
duration sits one level deeper, in the context of the wrapped payload.
Evaluates the loop at a store with one just-firing `IdleCheck`. -/
theorem tick_dispatch_payload_context_not_map :
    (({ Store.emptyStore with cb_checkable_events := [(0, [IdleCheck.init 1 1])] } :
        Store).tickTimeout 2).2 =
      [(Wrapped.base 0,
        DynEventData.mk none none (DynContext.payload (IdleCheck.resultPayload 2)))] ∧
    (∀ call ∈ (({ Store.emptyStore with
        cb_checkable_events := [(0, [IdleCheck.init 1 1])] } : Store).tickTimeout 2).2,
      call.2.context.mapLookup ("idle_for") = none) ∧
    (IdleCheck.resultPayload 2).context.mapLookup ("idle_for") = some 2 := by
  refine ⟨?_, ?_, ?_⟩
  · rfl
  · decide
  · rfl

/-- C3: an `IdleCheck` with `seconds=5` and `call_count_limit=2`, fed the
nine measured idle durations `[-1, 0.88, 1.88, 2.88, 3.88, 4.88, 5.88, 6.88,
7.88]` at consecutive ticks, returns exactly
`[F, F, F, F, F, F, T, T, F]`. -/
theorem idle_check_reference_trace :
    (IdleCheck.init 5 2).runChecks
      [-1, mkRat 88 100, mkRat 188 100, mkRat 288 100, mkRat 388 100,
        mkRat 488 100, mkRat 588 100, mkRat 688 100, mkRat 788 100] =
      [false, false, false, false, false, false, true, true, false] := by
  decide

/-- C4: normalizing a pair `(a, b)` yields exactly `[(a, b)]` and a single
id yields `[(id, id)]`; registering a pair with `a > b` fails the
`add_user_func` assertion instead of producing a binding. -/
theorem event_range_normalization (a b : Int) (st : Store) (cb : Callback) :
    coerce_event_ranges (EventsArg.pair a b) = [(a, b)] ∧
    coerce_event_ranges (EventsArg.single a) = [(a, a)] ∧
    (a > b →
      st.add_user_func cb (AddArg.events (EventsArg.pair a b)) =
        Except.error (StoreErr.assertionError, st)) := by
  refine ⟨rfl, rfl, fun h => ?_⟩
  simp [Store.add_user_func, coerce_event_ranges]
  omega

/-- Witness for C4 at the concrete pair `(5, 2)`. -/
theorem event_range_normalization_witness :
    (5 : Int) > 2 ∧
    Store.emptyStore.add_user_func ⟨0, 1, true⟩ (AddArg.events (EventsArg.pair 5 2)) =
      Except.error (StoreErr.assertionError, Store.emptyStore) :=
  ⟨by decide, (event_range_normalization 5 2 Store.emptyStore ⟨0, 1, true⟩).2.2 (by decide)⟩

/-- C5 counterexample: the claim says a malformed stored handle is a soft
failure and the sweep continues over the remaining handles; on a store
holding handles `[7, 8]` with `7` malformed, `unregister_all_hooks` instead
propagates the error having unregistered no handle at all, so `8` is left
registered. -/
theorem unregister_sweep_claim_counterexample :
    ({ Store.emptyStore with callback_hooks_handles := [(0, [7, 8])] } :
        Store).unregister_all_hooks (fun h => h == 7) = Except.error [] ∧
    ({ Store.emptyStore with callback_hooks_handles := [(0, [7, 8])] } :
        Store).allHooks = [7, 8] := by
  constructor
  · rfl
  · rfl

/-- C5 amended: `unregister_hook` treats the malformed-handle error softly
(returns `False`) only when called with `raise_on_err=False`; with the
default `raise_on_err=True`, which is what `unregister_all_hooks` uses, it
re-raises, so the sweep aborts at the first malformed stored handle, having
unregistered exactly the handles before it; a sweep over only well-formed
handles unregisters every stored handle and clears the handle lists. -/
theorem unregister_sweep_aborts_on_malformed (m : Int → Bool) (st : Store)
    (h : Int) (pre post : List Int) :
    (m h = true → unregister_hook m h false = Except.ok false) ∧
    (m h = true → unregister_hook m h = Except.error ()) ∧
    (st.allHooks = pre ++ h :: post → (∀ x ∈ pre, m x = false) → m h = true →
      st.unregister_all_hooks m = Except.error pre) ∧
    ((∀ x ∈ st.allHooks, m x = false) →
      st.unregister_all_hooks m =
        Except.ok ({ st with
          callback_hooks_handles := st.callback_hooks_handles.map (fun p => (p.1, [])) },
          st.allHooks)) := by
  refine ⟨fun hm => ?_, fun hm => ?_, fun hall hpre hm => ?_, fun hcl => ?_⟩
  · simp [unregister_hook, hm]
  · simp [unregister_hook, hm]
  · simp [Store.unregister_all_hooks, hall, unhookSweep_abort m h post hm pre [] hpre]
  · exact unregister_all_hooks_clean m st hcl

/-- Witness for the C5 amended claim: handles `[5, 7, 8]` with `7` malformed
abort the sweep after unregistering exactly `[5]`. -/
theorem unregister_sweep_aborts_on_malformed_witness :
    ((fun x => x == 7) (7 : Int) = true) ∧
    (({ Store.emptyStore with callback_hooks_handles := [(0, [5, 7, 8])] } :
        Store).allHooks = [5] ++ (7 : Int) :: [8]) ∧
    (∀ x ∈ [(5 : Int)], (fun x => x == 7) x = false) ∧
    ({ Store.emptyStore with callback_hooks_handles := [(0, [5, 7, 8])] } :
        Store).unregister_all_hooks (fun x => x == 7) = Except.error [5] :=
  ⟨by decide, by decide, by decide,
    (unregister_sweep_aborts_on_malformed (fun x => x == 7)
        { Store.emptyStore with callback_hooks_handles := [(0, [5, 7, 8])] }
        7 [5] [8]).2.2.1 (by decide) (by decide) (by decide)⟩

/-- C6 counterexample: the claim reads the two range tuples as intervals;
`(33, 33)` lies inside the global interval `[EVENT_MIN, EVENT_MAX]`, so per
the claim `is_valid_range` should return true, but the code's `in` on the
two-element tuples is element equality and `33` is no named event value, so
`is_valid_range` returns false. -/
theorem is_valid_range_interval_counterexample :
    is_valid_range [33, 33] = false ∧ is_valid_range_specModel [33, 33] = true := by
  decide

/-- C6 amended: `is_valid_range((a, b))` returns true iff the tuple has
length 2, `a ≤ b`, and each endpoint is *equal to* one of the four boundary
constants (`EVENT_MIN`, `EVENT_MAX`, the AIA start or end) or is a known
named event value — endpoint membership of the range tuples, not interval
containment. -/
theorem is_valid_range_membership_characterization (a b : Int) :
    is_valid_range [a, b] = true ↔
      a ≤ b ∧
      (a = EVENT_MIN ∨ a = EVENT_MAX ∨ a = (0xA000 : Int) ∨ a = (0xAFFF : Int) ∨
        a ∈ winEventValues) ∧
      (b = EVENT_MIN ∨ b = EVENT_MAX ∨ b = (0xA000 : Int) ∨ b = (0xAFFF : Int) ∨
        b ∈ winEventValues) := by
  simp only [is_valid_range, win_events_mem, ALL_EVENTS_RANGE, ALL_AIA_EVENTS_RANGE,
    Bool.and_eq_true, Bool.or_eq_true, decide_eq_true_eq, beq_iff_eq,
    List.elem_iff]
  constructor
  · rintro ⟨⟨hab, ha⟩, hb⟩
    refine ⟨by omega, ?_, ?_⟩ <;> tauto
  · rintro ⟨hab, ha, hb⟩
    refine ⟨⟨by omega, ?_⟩, ?_⟩ <;> tauto

/-- C7: applying a filter decorator records the new wrapper in the registry
under the wrapped function's original, unwrapped identity; stacking `D1` on
`D2(F)` produces the composition `D1(D2(F))` recorded under `F`'s identity;
`get_derived_callable` returns the most recently recorded wrapper (last
write wins), or the function itself when nothing was recorded. -/
theorem filter_stacking_updates_registry (st : Store) (f d1 d2 : Nat)
    (hnone : List.lookup f st.derived_callback = none) :
    (applyFilterDecorator d1 (applyFilterDecorator d2 (Wrapped.base f) st).1
        (applyFilterDecorator d2 (Wrapped.base f) st).2).1 =
      Wrapped.wrap d1 (Wrapped.wrap d2 (Wrapped.base f)) ∧
    ((applyFilterDecorator d2 (Wrapped.base f) st).2.get_derived_callable f =
      Wrapped.wrap d2 (Wrapped.base f)) ∧
    ((applyFilterDecorator d1 (applyFilterDecorator d2 (Wrapped.base f) st).1
        (applyFilterDecorator d2 (Wrapped.base f) st).2).2.get_derived_callable f =
      Wrapped.wrap d1 (Wrapped.wrap d2 (Wrapped.base f))) ∧
    st.get_derived_callable f = Wrapped.base f := by
  refine ⟨rfl, ?_, ?_, ?_⟩
  · simp [applyFilterDecorator, Store.get_derived_callable, Store.update_callable,
      Wrapped.unwrapId, lookup_dictSet]
  · simp [applyFilterDecorator, Store.get_derived_callable, Store.update_callable,
      Wrapped.unwrapId, lookup_dictSet]
  · simp [Store.get_derived_callable, hnone]

/-- Witness for C7: stacking filters `11` and `22` on function `4` over the
fresh store. -/
theorem filter_stacking_updates_registry_witness :
    List.lookup 4 (Store.emptyStore.derived_callback) = none ∧
    ((applyFilterDecorator 11 (applyFilterDecorator 22 (Wrapped.base 4) Store.emptyStore).1
        (applyFilterDecorator 22 (Wrapped.base 4) Store.emptyStore).2).2.get_derived_callable 4 =
      Wrapped.wrap 11 (Wrapped.wrap 22 (Wrapped.base 4))) ∧
    Store.emptyStore.get_derived_callable 4 = Wrapped.base 4 :=
  ⟨rfl, (filter_stacking_updates_registry Store.emptyStore 4 11 22 rfl).2.2.1,
    (filter_stacking_updates_registry Store.emptyStore 4 11 22 rfl).2.2.2⟩

/-- C8: a `pywintypes.error` with `winerror == 1400` raised by the user
predicate is treated as a filter failure (the wrapper returns the no-op
sentinel) when `capture_invalid_window_handle` is enabled, propagates when it
is disabled, and any error that is not that class propagates regardless of
the setting. -/
theorem stale_handle_capture_behavior {α : Type} (cfg : FilterConfig)
    (test : EventData → Except PyErr Bool) (func : EventData → α) (d : EventData)
    (hg : guardsPass cfg d = true) :
    (test d = Except.error (PyErr.pywinError 1400) →
      cfg.capture_invalid_window_handle = true →
      filter_wrapper cfg test func (some d) =
        (Except.ok none, enabledGuardSteps cfg ++ [Step.userPredicate])) ∧
    (test d = Except.error (PyErr.pywinError 1400) →
      cfg.capture_invalid_window_handle = false →
      (filter_wrapper cfg test func (some d)).1 =
        Except.error (PyErr.pywinError 1400)) ∧
    (∀ e, test d = Except.error e → e ≠ PyErr.pywinError 1400 →
      (filter_wrapper cfg test func (some d)).1 = Except.error e) := by
  obtain ⟨h1, h2⟩ := (guardsPass_iff cfg d).mp hg
  have he := event_test_pass cfg test d h1 h2
  refine ⟨fun ht hc => ?_, fun ht hc => ?_, fun e ht hne => ?_⟩
  · simp [filter_wrapper, he, ht, hc]
  · simp [filter_wrapper, he, ht, hc]
  · cases e with
    | pywinError w =>
      have hww : ¬(cfg.capture_invalid_window_handle = true ∧ w = 1400) := by
        rintro ⟨_, rfl⟩
        exact hne rfl
      simp [filter_wrapper, he, ht, hww]
    | otherError c => simp [filter_wrapper, he, ht]

/-- Witness for C8: with guards disabled and capture enabled, a predicate
raising `pywintypes.error` with `winerror 1400` yields the no-op sentinel. -/
theorem stale_handle_capture_behavior_witness :
    guardsPass ⟨false, false, true⟩ ⟨none, []⟩ = true ∧
    ((fun _ => Except.error (PyErr.pywinError 1400) :
        EventData → Except PyErr Bool) ⟨none, []⟩ =
      Except.error (PyErr.pywinError 1400)) ∧
    filter_wrapper ⟨false, false, true⟩
        (fun _ => Except.error (PyErr.pywinError 1400)) (fun _ => (0 : Nat))
        (some ⟨none, []⟩) =
      (Except.ok none, enabledGuardSteps ⟨false, false, true⟩ ++ [Step.userPredicate]) :=
  ⟨by decide, rfl,
    (stale_handle_capture_behavior ⟨false, false, true⟩
        (fun _ => Except.error (PyErr.pywinError 1400))
        (fun _ => (0 : Nat)) ⟨none, []⟩ (by decide)).1 rfl rfl⟩

/-- C9: `run()` on a store already running raises without changing the
store's state; otherwise, on every exit path of the message loop — normal
break or an exception raised during dispatch — the stored hooks are all
unregistered (given the native layer accepts every stored handle) and the
store ends not running. -/
theorem run_lifecycle (m : Int → Bool) (st : Store) (ex : LoopExit) :
    (st.running = true → st.run m ex = (some RunError.loopAlreadyRunning, st)) ∧
    (st.running = false → (∀ x ∈ st.registerHooks.allHooks, m x = false) →
      (st.run m ex).2.running = false ∧ (st.run m ex).2.allHooks = []) := by
  constructor
  · intro hr
    simp [Store.run, hr]
  · intro hr hcl
    have hclean : ∀ x ∈ ({ st.registerHooks with running := true } : Store).allHooks,
        m x = false := hcl
    have h1 := unregister_all_hooks_clean m { st.registerHooks with running := true } hclean
    cases ex <;>
      simp only [Store.run, hr, Bool.false_eq_true, if_false, Store.msg_loop_exit, h1] <;>
      exact ⟨trivial, flatten_map_nil _⟩

/-- Witness for C9: one callback bound to one range, no malformed handle, a
dispatch exception as the loop exit. -/
theorem run_lifecycle_witness :
    (({ Store.emptyStore with cb_ranges := [(0, [((3 : Int), (4 : Int))])] } :
        Store).running = false) ∧
    (∀ x ∈ ({ Store.emptyStore with cb_ranges := [(0, [((3 : Int), (4 : Int))])] } :
        Store).registerHooks.allHooks, (fun _ => false : Int → Bool) x = false) ∧
    ((({ Store.emptyStore with cb_ranges := [(0, [((3 : Int), (4 : Int))])] } :
        Store).run (fun _ => false) (LoopExit.dispatchExc 3)).2.running = false ∧
      (({ Store.emptyStore with cb_ranges := [(0, [((3 : Int), (4 : Int))])] } :
        Store).run (fun _ => false) (LoopExit.dispatchExc 3)).2.allHooks = []) :=
  ⟨rfl, by decide,
    (run_lifecycle (fun _ => false) { Store.emptyStore with cb_ranges := [(0, [(3, 4)])] }
        (LoopExit.dispatchExc 3)).2 rfl (by decide)⟩

/-- C10 counterexample: the claim says binding a `CheckableEvent` always
appends the binding and returns `{event: true}` without any signature
validation, even for a callback that does not accept exactly one
`EventData`-annotated parameter; but `add_user_func` is decorated
`@typechecked`, whose gate validates the callable's declared argument count
on every path, so a two-parameter callback raises `TypeError` on the
`CheckableEvent` path and nothing is appended. -/
theorem add_user_func_typeguard_counterexample :
    Store.emptyStore.add_user_func_checked ⟨0, 2, false⟩
        (AddArg.checkable (IdleCheck.init 1 1)) =
      Except.error (StoreErr.typeError, Store.emptyStore) ∧
    Store.emptyStore.add_user_func_checked ⟨0, 2, false⟩
        (AddArg.checkable (IdleCheck.init 1 1)) ≠
      Except.ok
        ({ Store.emptyStore with
          cb_checkable_events :=
            dictAppend Store.emptyStore.cb_checkable_events 0 (IdleCheck.init 1 1) },
          [(BindKey.checkable (IdleCheck.init 1 1), true)]) := by
  constructor
  · rfl
  · simp [Store.add_user_func_checked, typechecked_callable_gate]

/-- C10 amended: `add_user_func` validates callbacks in two layers.  The
`@typechecked` decorator's arity gate runs first on every call path —
checkable, duplicate ranged and fresh ranged binds alike — and raises
`TypeError` for a callback whose declared parameter count is not one,
binding nothing.  For a callback that passes the gate (one declared
parameter), `_check_user_callback_type`'s `EventData`-annotation check runs
only on the fresh, non-duplicate ranged path: binding a `CheckableEvent`
appends and returns `{event: true}` and a duplicate ranged bind returns
false, both regardless of the annotation; only a new ranged bind raises
`KeyError` when the annotation is missing. -/
theorem add_user_func_validation_layers (st : Store) (cb : Callback)
    (ev : IdleCheck) (r : Int × Int) (events : AddArg) :
    (cb.param_count ≠ 1 →
      st.add_user_func_checked cb events = Except.error (StoreErr.typeError, st)) ∧
    (cb.param_count = 1 →
      st.add_user_func_checked cb (AddArg.checkable ev) =
        Except.ok
          ({ st with cb_checkable_events := dictAppend st.cb_checkable_events cb.id ev },
            [(BindKey.checkable ev, true)])) ∧
    (cb.param_count = 1 → r.1 ≤ r.2 → st.is_registered_for cb.id r = true →
      st.add_user_func_checked cb (AddArg.events (EventsArg.pair r.1 r.2)) =
        Except.ok (st, [(BindKey.range r, false)])) ∧
    (cb.param_count = 1 → r.1 ≤ r.2 → st.is_registered_for cb.id r = false →
      cb.param_annotated_event_data = false →
      st.add_user_func_checked cb (AddArg.events (EventsArg.pair r.1 r.2)) =
        Except.error (StoreErr.keyError, st)) := by
  refine ⟨fun hgate => ?_, fun hpc => ?_, fun hpc hord hreg => ?_,
    fun hpc hord hreg hann => ?_⟩
  · simp [Store.add_user_func_checked, typechecked_callable_gate, hgate]
  · simp [Store.add_user_func_checked, typechecked_callable_gate, hpc,
      Store.add_user_func]
  · simp [Store.add_user_func_checked, typechecked_callable_gate, hpc,
      Store.add_user_func, coerce_event_ranges, hord, addRangesLoop, hreg]
  · have hcheck : check_user_callback_type cb = Except.error StoreErr.keyError := by
      simp [check_user_callback_type, hann]
    simp [Store.add_user_func_checked, typechecked_callable_gate, hpc,
      Store.add_user_func, coerce_event_ranges, hord, addRangesLoop, hreg, hcheck]

/-- Witness for the C10 amended claim: a two-parameter callback is rejected
by the gate on the checkable path; a one-parameter callback without the
`EventData` annotation binds a checkable event and a duplicate range, and is
rejected only by a fresh ranged bind. -/
theorem add_user_func_validation_layers_witness :
    ((2 : Nat) ≠ 1) ∧
    (Store.emptyStore.add_user_func_checked ⟨0, 2, false⟩
        (AddArg.checkable (IdleCheck.init 1 1)) =
      Except.error (StoreErr.typeError, Store.emptyStore)) ∧
    (Store.emptyStore.add_user_func_checked ⟨0, 1, false⟩
        (AddArg.checkable (IdleCheck.init 1 1)) =
      Except.ok
        ({ Store.emptyStore with
          cb_checkable_events :=
            dictAppend Store.emptyStore.cb_checkable_events 0 (IdleCheck.init 1 1) },
          [(BindKey.checkable (IdleCheck.init 1 1), true)])) ∧
    (({ Store.emptyStore with cb_ranges := [(0, [((1 : Int), (5 : Int))])] } :
        Store).add_user_func_checked ⟨0, 1, false⟩ (AddArg.events (EventsArg.pair 1 5)) =
      Except.ok ({ Store.emptyStore with cb_ranges := [(0, [((1 : Int), (5 : Int))])] },
        [(BindKey.range (1, 5), false)])) ∧
    (Store.emptyStore.add_user_func_checked ⟨0, 1, false⟩
        (AddArg.events (EventsArg.pair 1 5)) =
      Except.error (StoreErr.keyError, Store.emptyStore)) :=
  ⟨by decide,
    (add_user_func_validation_layers Store.emptyStore ⟨0, 2, false⟩ (IdleCheck.init 1 1)
        (1, 5) (AddArg.checkable (IdleCheck.init 1 1))).1 (by decide),
    (add_user_func_validation_layers Store.emptyStore ⟨0, 1, false⟩ (IdleCheck.init 1 1)
        (1, 5) (AddArg.checkable (IdleCheck.init 1 1))).2.1 rfl,
    (add_user_func_validation_layers
        { Store.emptyStore with cb_ranges := [(0, [(1, 5)])] } ⟨0, 1, false⟩
        (IdleCheck.init 1 1) (1, 5) (AddArg.checkable (IdleCheck.init 1 1))).2.2.1
      rfl (by decide) (by decide),
    (add_user_func_validation_layers Store.emptyStore ⟨0, 1, false⟩ (IdleCheck.init 1 1)
        (1, 5) (AddArg.checkable (IdleCheck.init 1 1))).2.2.2
      rfl (by decide) (by decide) rfl⟩

end Systa
